import Mathlib

/-!
Verification of the webdriver wrapper (`src/wrapper.py`).

The wrapper is embedded shallowly:

* The browser driver (the external collaborator providing `find_elements`
  and `is_displayed`) is abstracted as a `Driver` structure of pure
  functions; elements are `Nat` identifiers, a search context is
  `Option Nat` (`none` = the root driver / current object, `some e` =
  searching inside element `e`).
* Python `Optional[str]` arguments become `Option String`; Python
  truthiness of such a value (`if x:`) is `pyTruthyStr`, while
  `x is not None` is `Option.isSome`.
* Exceptions become `Except`: the wrapper's selector errors are `WErr`
  (`invalidQuery` for the two generic `Exception(...)` raises,
  `elementNotFound` for `NoSuchElementException`), and a
  `StaleElementReferenceException` raised by `is_displayed` is the
  `Except Unit` error of `Driver.displayed`.
-/

set_option autoImplicit false

namespace Wrapper

/-- Python truthiness of an `Optional[str]` value: `None` and `''` are falsy. -/
def pyTruthyStr : Option String → Bool
  | none => false
  | some s => s != ""

/-- The six `By.*` lookup strategies used by `get_elms` (lines 78-89). -/
inductive SelBy where
  | id
  | class_name
  | name
  | tag_name
  | xpath
  | css_selector
deriving DecidableEq

/-- Wrapper-level errors: `invalidQuery` stands for the two generic
`Exception(...)` raises of `get_elms` (more than one selector / no selector),
`elementNotFound` for `selenium_exc.NoSuchElementException`. -/
inductive WErr where
  | invalidQuery
  | elementNotFound
deriving DecidableEq

/-- Abstraction of the browser driver.  `find ctx by value` is
`ctx.find_elements(by=by, value=value)` (with `ctx = none` the root object
the wrapper method was invoked on); `displayed e` is `e.is_displayed()`,
returning `.error ()` when the element is stale
(`StaleElementReferenceException`). -/
structure Driver where
  find : Option Nat → SelBy → String → List Nat
  displayed : Nat → Except Unit Bool

/-- The keyword arguments of `get_elm` / `get_elms`
(`id_`, `class_name`, `name`, `tag_name`, `parent_id`, `parent_class_name`,
`parent_name`, `parent_tag_name`, `xpath`, `css_selector`), all defaulting
to `None`. -/
structure Args where
  id_ : Option String := none
  class_name : Option String := none
  name : Option String := none
  tag_name : Option String := none
  parent_id : Option String := none
  parent_class_name : Option String := none
  parent_name : Option String := none
  parent_tag_name : Option String := none
  xpath : Option String := none
  css_selector : Option String := none

/-- Lines 75-90 of `get_elms`: the exclusivity check
`len([x for x in (...) if x is not None]) > 1` followed by the dispatch on
the first non-`None` selector, ending in the mandatory-selector raise. -/
def find_by (d : Driver) (ctx : Option Nat)
    (id_ class_name nm tag_name xpath css_selector : Option String) :
    Except WErr (List Nat) :=
  if ([id_, class_name, nm, tag_name, xpath, css_selector].filter Option.isSome).length > 1 then
    .error .invalidQuery
  else match id_ with
  | some v => .ok (d.find ctx .id v)
  | none => match class_name with
    | some v => .ok (d.find ctx .class_name v)
    | none => match nm with
      | some v => .ok (d.find ctx .name v)
      | none => match tag_name with
        | some v => .ok (d.find ctx .tag_name v)
        | none => match xpath with
          | some v => .ok (d.find ctx .xpath v)
          | none => match css_selector with
            | some v => .ok (d.find ctx .css_selector v)
            | none => .error .invalidQuery

/-- Truthiness test of line 70:
`if parent_id or parent_class_name or parent_name or parent_tag_name:`. -/
def any_parent_truthy (a : Args) : Bool :=
  pyTruthyStr a.parent_id || pyTruthyStr a.parent_class_name ||
  pyTruthyStr a.parent_name || pyTruthyStr a.parent_tag_name

/-- Lines 70-73 of `get_elms`: resolve the search root.  When a parent field
is truthy the code calls
`self.get_elm(parent_id, parent_class_name, parent_name, parent_tag_name)`;
that nested call carries no parent fields of its own, so it is exactly
`find_by` on the four parent fields followed by the first-element extraction
of `get_elm` — which is how it is written here (the bounded recursion of the
source is inlined one level). -/
def resolve_parent (d : Driver) (ctx : Option Nat) (a : Args) :
    Except WErr (Option Nat) :=
  if any_parent_truthy a then
    match find_by d ctx a.parent_id a.parent_class_name a.parent_name a.parent_tag_name none none with
    | .error e => .error e
    | .ok [] => .error .elementNotFound
    | .ok (e :: _) => .ok (some e)
  else .ok ctx

/-- `_WebdriverBaseWrapper.get_elms` (lines 53-90): parent scoping first,
then the exclusivity check and dispatch. -/
def get_elms (d : Driver) (ctx : Option Nat) (a : Args) : Except WErr (List Nat) :=
  match resolve_parent d ctx a with
  | .error e => .error e
  | .ok parent => find_by d parent a.id_ a.class_name a.name a.tag_name a.xpath a.css_selector

/-- `_WebdriverBaseWrapper.get_elm` (lines 36-51): `get_elms`, then
`NoSuchElementException` on an empty result, else the first element. -/
def get_elm (d : Driver) (ctx : Option Nat) (a : Args) : Except WErr Nat :=
  match get_elms d ctx a with
  | .error e => .error e
  | .ok [] => .error .elementNotFound
  | .ok (e :: _) => .ok e

/-- Number of main selector fields that are not `None` (the list of line 75). -/
def mainCount (a : Args) : Nat :=
  ([a.id_, a.class_name, a.name, a.tag_name, a.xpath, a.css_selector].filter Option.isSome).length

/-- Evaluation of the generator expression
`all(not elm.is_displayed() for elm in elms)` (lines 124 and 148): elements
are tested left to right; a `True` from `is_displayed` short-circuits `all`
to `False`, a `StaleElementReferenceException` escapes the generator. -/
def allNotDisplayed (d : Driver) : List Nat → Except Unit Bool
  | [] => .ok true
  | e :: rest =>
    match d.displayed e with
    | .error u => .error u
    | .ok true => .ok false
    | .ok false => allNotDisplayed d rest

/-- The polling callback of `wait_for_element_show` (lines 119-128): empty
result set → `False`; all elements hidden → `False`; stale element raised
while checking → `False`; otherwise `True`.  Errors of `get_elms` itself
(raised before the `try`) propagate. -/
def show_callback (d : Driver) (ctx : Option Nat) (a : Args) : Except WErr Bool :=
  match get_elms d ctx a with
  | .error e => .error e
  | .ok elms =>
    if elms.isEmpty then .ok false
    else match allNotDisplayed d elms with
      | .ok true => .ok false
      | .error _ => .ok false
      | .ok false => .ok true

/-- The polling callback of `wait_for_element_hide` (lines 143-152): empty
result set → `True`; all elements hidden → `True`; stale element raised
while checking → `False`; otherwise `False`. -/
def hide_callback (d : Driver) (ctx : Option Nat) (a : Args) : Except WErr Bool :=
  match get_elms d ctx a with
  | .error e => .error e
  | .ok elms =>
    if elms.isEmpty then .ok true
    else match allNotDisplayed d elms with
      | .ok true => .ok true
      | .error _ => .ok false
      | .ok false => .ok false

/-- No element of the list is stale. -/
def noStale (d : Driver) (elms : List Nat) : Prop :=
  ∀ e ∈ elms, d.displayed e ≠ .error ()

/-- `is_displayed` returned `False` (element present but hidden). -/
def isHidden (d : Driver) (e : Nat) : Bool :=
  match d.displayed e with
  | .ok false => true
  | _ => false

/-- `_WebdriverBaseWrapper.default_wait_timeout` (line 15). -/
def default_wait_timeout : Nat := 10

/-- Lines 170-171 of `wait`: `if not timeout: timeout = self.default_wait_timeout`
(`None` and `0` are falsy). -/
def wait_timeout (timeout : Option Nat) : Nat :=
  match timeout with
  | none => default_wait_timeout
  | some 0 => default_wait_timeout
  | some n => n

/-- Lines 101-102 of `wait_for_element`: the same falsy-timeout defaulting. -/
def wait_for_element_timeout (timeout : Option Nat) : Nat :=
  match timeout with
  | none => default_wait_timeout
  | some 0 => default_wait_timeout
  | some n => n

/-- Lines 117-118 of `wait_for_element_show`: the same falsy-timeout defaulting. -/
def wait_for_element_show_timeout (timeout : Option Nat) : Nat :=
  match timeout with
  | none => default_wait_timeout
  | some 0 => default_wait_timeout
  | some n => n

/-- Lines 141-142 of `wait_for_element_hide`: the same falsy-timeout defaulting. -/
def wait_for_element_hide_timeout (timeout : Option Nat) : Nat :=
  match timeout with
  | none => default_wait_timeout
  | some 0 => default_wait_timeout
  | some n => n

/-- Lines 296-297 of `wait_for_alert`: the same falsy-timeout defaulting. -/
def wait_for_alert_timeout (timeout : Option Nat) : Nat :=
  match timeout with
  | none => default_wait_timeout
  | some 0 => default_wait_timeout
  | some n => n

/-- Split a character list at the first occurrence of `sep`
(Python `s.split(sep, 1)`): the part before, and `some` rest when `sep`
occurs. -/
def splitFirst (sep : Char) : List Char → List Char × Option (List Char)
  | [] => ([], none)
  | c :: rest =>
    if c = sep then ([], some rest)
    else
      let (a, b) := splitFirst sep rest
      (c :: a, b)

/-- Characters allowed in a URL scheme after the first letter
(`urllib.parse.scheme_chars`). -/
def schemeChar (c : Char) : Bool :=
  c.isAlphanum || c = '+' || c = '-' || c = '.'

/-- Scheme extraction of `urllib.parse.urlsplit`: when the text before the
first `:` is non-empty, starts with an ASCII letter and consists of scheme
characters, it is the (lower-cased) scheme; otherwise no scheme is split
off. -/
def splitScheme (u : List Char) : List Char × List Char :=
  match splitFirst ':' u with
  | (_, none) => ([], u)
  | (pre, some rest) =>
    match pre with
    | [] => ([], u)
    | c :: cs =>
      if c.isAlpha && (c :: cs).all schemeChar then ((c :: cs).map Char.toLower, rest)
      else ([], u)

/-- `urllib.parse._splitnetloc`: the netloc runs from after `//` up to the
first `/`, `?` or `#`. -/
def takeNetloc : List Char → List Char × List Char
  | [] => ([], [])
  | c :: rest =>
    if c = '/' ∨ c = '?' ∨ c = '#' then ([], c :: rest)
    else
      let (a, b) := takeNetloc rest
      (c :: a, b)

/-- The components returned by `urllib.parse.urlparse` that `get_url` reads
(`params` is not modelled: the URLs handled here have no `;` parameters, for
which `urlparse` coincides with `urlsplit`). -/
structure UrlParts where
  scheme : String
  netloc : String
  path : String
  query : String
  fragment : String
deriving DecidableEq

/-- `urllib.parse.urlsplit` on a string without embedded whitespace or
control characters: scheme, then `//`-netloc, then fragment, then query. -/
def urlsplit (s : String) : UrlParts :=
  let (scheme, u1) := splitScheme s.toList
  let (netloc, u2) :=
    if u1.take 2 = ['/', '/'] then takeNetloc (u1.drop 2) else ([], u1)
  let (u3, fragment) := splitFirst '#' u2
  let (path, query) := splitFirst '?' u3
  { scheme := String.mk scheme, netloc := String.mk netloc,
    path := String.mk path, query := String.mk (query.getD []),
    fragment := String.mk (fragment.getD []) }

/-- `urllib.parse.urlunsplit` restricted to the shape `get_url` builds
(`params` is `None` there, so `urlunparse` reduces to `urlunsplit`); a
`none` or empty query/fragment is falsy and contributes nothing. -/
def urlunsplit (scheme netloc path : String) (query fragment : Option String) : String :=
  let url :=
    if netloc ≠ "" ∨ (path.toList ≠ [] ∧ path.toList.take 2 = ['/', '/']) then
      let p := if path.toList ≠ [] ∧ path.toList.take 1 ≠ ['/'] then "/" ++ path else path
      "//" ++ netloc ++ p
    else path
  let url := if scheme ≠ "" then scheme ++ ":" ++ url else url
  let url :=
    match query with
    | some q => if q ≠ "" then url ++ "?" ++ q else url
    | none => url
  match fragment with
  | some f => if f ≠ "" then url ++ "#" ++ f else url
  | none => url

/-- Upper-case hexadecimal digit, as used by `urllib.parse.quote`. -/
def hexDigit (n : Nat) : Char :=
  if n < 10 then Char.ofNat (48 + n) else Char.ofNat (55 + n)

/-- `urllib.parse.quote_plus` on one character: unreserved characters
(letters, digits, `_ . - ~`) pass through, a space becomes `+`, anything
else is percent-encoded byte-wise over its UTF-8 encoding. -/
def quote_plus_char (c : Char) : List Char :=
  if c.isAlphanum || c = '_' || c = '.' || c = '-' || c = '~' then [c]
  else if c = ' ' then ['+']
  else (String.utf8EncodeChar c).flatMap fun b =>
    ['%', hexDigit (b.toNat / 16), hexDigit (b.toNat % 16)]

/-- `urllib.parse.quote_plus`. -/
def quote_plus (s : String) : String :=
  String.mk (s.toList.flatMap quote_plus_char)

/-- `urllib.parse.urlencode` on a mapping: `k=v` pairs in iteration order,
each side quoted with `quote_plus`, joined by `&`. -/
def urlencode (items : List (String × String)) : String :=
  String.intercalate "&" (items.map fun kv => quote_plus kv.1 ++ "=" ++ quote_plus kv.2)

/-- The `query` argument of `get_url`: either an already-encoded string or a
mapping (line 212 checks `isinstance(query, dict)`). -/
inductive PyQuery where
  | str (s : String)
  | dict (items : List (String × String))

/-- Lines 212-226 of `get_url`: encode a dict query, reparse the current
URL and rebuild it with the new path (current path kept when `path` is
falsy), the encoded query, and no params or fragment. -/
def get_url_build (current_url : String) (path : Option String) (query : Option PyQuery) : String :=
  let q : Option String := query.map fun pq =>
    match pq with
    | .str s => s
    | .dict items => urlencode items
  let parts := urlsplit current_url
  let newPath :=
    match path with
    | some p => if p ≠ "" then p else parts.path
    | none => parts.path
  urlunsplit parts.scheme parts.netloc newPath q none

/-- `_WebdriverWrapper.get_url` (lines 208-226): a `path` that parses with a
netloc is returned unchanged (line 209; `urlparse(None)` yields an empty
netloc, so a `none` path always falls through), otherwise the URL is rebuilt
from the current one. -/
def get_url (current_url : String) (path : Option String) (query : Option PyQuery) : String :=
  match path with
  | some p => if (urlsplit p).netloc ≠ "" then p else get_url_build current_url (some p) query
  | none => get_url_build current_url none query

/-- One open browser window: its handle, title and current URL. -/
structure Window where
  handle : String
  title : String
  url : String
deriving DecidableEq

/-- The window-related browser state: the open windows (in the enumeration
order of `window_handles`) and the handle of the focused window
(`current_window_handle`). -/
structure Session where
  windows : List Window
  current : String
deriving DecidableEq

/-- Error of the window operations: `selenium_exc.NoSuchWindowException`,
raised by the driver when switching to an unknown handle and by
`switch_to_window` after an unsuccessful scan. -/
inductive SErr where
  | noSuchWindow
deriving DecidableEq

/-- The driver primitive `self.switch_to.window(handle)`: focus the window
with that handle, or fail when no open window has it. -/
def switch_handle (s : Session) (h : String) : Except SErr Session :=
  if s.windows.any fun w => w.handle == h then .ok { s with current := h }
  else .error .noSuchWindow

/-- `self.current_url`: the URL of the focused window. -/
def session_url (s : Session) : String :=
  ((s.windows.find? fun w => w.handle == s.current).map Window.url).getD ""

/-- `self.title`: the title of the focused window. -/
def session_title (s : Session) : String :=
  ((s.windows.find? fun w => w.handle == s.current).map Window.title).getD ""

/-- The scan loop of `switch_to_window` (lines 241-247): switch into each
handle in turn; return on a truthy `title` matching the window title or a
truthy `url` matching its current URL; raise `NoSuchWindowException` after
exhausting the handles. -/
def stw_loop (title url : Option String) : List String → Session → Except SErr Session
  | [], _ => .error .noSuchWindow
  | h :: rest, s =>
    match switch_handle s h with
    | .error e => .error e
    | .ok s' =>
      if pyTruthyStr title && (session_title s' == title.getD "") then .ok s'
      else if pyTruthyStr url && (session_url s' == url.getD "") then .ok s'
      else stw_loop title url rest s'

/-- `_WebdriverWrapper.switch_to_window` (lines 228-247): a truthy
`window_name` switches directly by handle; otherwise a truthy `url` is first
resolved through `get_url` against the current window's URL, and the open
handles are scanned. -/
def switch_to_window (s : Session) (window_name title url : Option String) : Except SErr Session :=
  if pyTruthyStr window_name then switch_handle s (window_name.getD "")
  else
    let url' := if pyTruthyStr url then some (get_url (session_url s) url none) else url
    stw_loop title url' (s.windows.map Window.handle) s

/-- The driver primitive `self.close()`: remove the focused window from the
open set (the `current` handle is left dangling until the next switch). -/
def close_current (s : Session) : Session :=
  { s with windows := s.windows.filter fun w => w.handle != s.current }

/-- `_WebdriverWrapper.close_window` (lines 249-257): record the current
handle, switch to the target window, close it, switch back to the recorded
handle. -/
def close_window (s : Session) (window_name title url : Option String) : Except SErr Session :=
  match switch_to_window s window_name title url with
  | .error e => .error e
  | .ok s1 => switch_to_window (close_current s1) (some s.current) none none

/-- `_WebdriverWrapper.close_alert` (lines 272-283): fetching and accepting
the alert is abstracted as its combined outcome `fetch_accept` (the
`Alert(self)` constructor cannot fail; `accept()` can fail arbitrarily).
The bare `except:` swallows every error when `ignore_exception` is set and
re-raises it otherwise. -/
def close_alert {E : Type} (fetch_accept : Except E Unit) (ignore_exception : Bool) :
    Except E Unit :=
  match fetch_accept with
  | .ok _ => .ok ()
  | .error e => if ignore_exception then .ok () else .error e

/-! Concrete fixtures used by the witness theorems. -/

/-- A driver whose every lookup returns no elements. -/
def dEmpty : Driver :=
  { find := fun _ _ _ => [], displayed := fun _ => .ok false }

/-- A driver whose lookups return elements `1` and `2`; `1` is hidden and
`2` is visible, no element is stale. -/
def dShow : Driver :=
  { find := fun _ _ _ => [1, 2], displayed := fun e => if e = 2 then .ok true else .ok false }

/-- A driver whose lookups return the single hidden element `1`. -/
def dHide : Driver :=
  { find := fun _ _ _ => [1], displayed := fun _ => .ok false }

/-- A driver on which class-name lookups match element `7` while every
other selector kind matches nothing. -/
def dOther : Driver :=
  { find := fun _ b _ =>
      match b with
      | .class_name => [7]
      | _ => [],
    displayed := fun _ => .ok false }

/-- A call with the single selector `id_='x'`. -/
def aId : Args := { id_ := some "x" }

/-- A call with two main selectors and no parent scope. -/
def aMulti : Args := { id_ := some "a", class_name := some "b" }

/-- A call with two main selectors and a truthy parent scope. -/
def aMultiParent : Args := { id_ := some "a", class_name := some "b", parent_id := some "p" }

/-- A two-window session focused on `w1`. -/
def sTwo : Session :=
  { windows := [⟨"w1", "t1", "https://a.com/1"⟩, ⟨"w2", "t2", "https://a.com/2"⟩],
    current := "w1" }

/-- `sTwo` after `close_window` removed `w2` and focus returned to `w1`. -/
def sTwoAfter : Session :=
  { windows := [⟨"w1", "t1", "https://a.com/1"⟩], current := "w1" }

/-! Claim theorems. -/

/-- Claim C1, counterexample: with the two main selectors `id_='a'`,
`class_name='b'` and the truthy parent selector `parent_id='p'` on a driver
matching nothing, `get_elms` fails with `ElementNotFound` (from the parent
lookup of line 71, which runs before the exclusivity check of line 75), not
with `InvalidQuery`. -/
theorem get_elms_parent_error_preempts_cex :
    mainCount aMultiParent > 1 ∧
    get_elms dEmpty none aMultiParent = .error .elementNotFound ∧
    get_elms dEmpty none aMultiParent ≠ .error .invalidQuery :=
  ⟨by decide, rfl, fun h => WErr.noConfusion (Except.error.inj h)⟩

/-- Claim C1 (amended): a `get_elms` call with more than one non-null main
selector field fails with `InvalidQuery` whenever the parent-scope step does
not itself fail with `ElementNotFound` first — in particular whenever no
parent field is truthy, or the supplied parent scope resolves. -/
theorem get_elms_multi_selector_invalid_query (d : Driver) (ctx : Option Nat) (a : Args)
    (hm : mainCount a > 1) (hp : resolve_parent d ctx a ≠ .error .elementNotFound) :
    get_elms d ctx a = .error .invalidQuery := by
  unfold mainCount at hm
  unfold get_elms
  cases hr : resolve_parent d ctx a with
  | error e =>
    cases e with
    | invalidQuery => rfl
    | elementNotFound => exact absurd hr hp
  | ok parent =>
    show find_by d parent a.id_ a.class_name a.name a.tag_name a.xpath a.css_selector =
      .error .invalidQuery
    unfold find_by
    rw [if_pos hm]

theorem get_elms_multi_selector_invalid_query_witness :
    get_elms dEmpty none aMulti = .error .invalidQuery := by
  have hrp : resolve_parent dEmpty none aMulti = Except.ok (none : Option Nat) := rfl
  exact get_elms_multi_selector_invalid_query dEmpty none aMulti (by decide)
    (by rw [hrp]; exact fun h => Except.noConfusion h)

/-- Claim C5: for every call with exactly one main selector field and no
truthy parent scope, `get_elms` returns — without error — exactly the
element list the driver produced for that one dispatched selector; hence
when that lookup matches zero elements `get_elms` returns the empty list
without error while `get_elm` fails with `ElementNotFound`, and whenever
`get_elms` returns a non-empty list, `get_elm` returns its first
element. -/
theorem get_elm_first_of_get_elms (d : Driver) (ctx : Option Nat) (a : Args)
    (hp : any_parent_truthy a = false) (h1 : mainCount a = 1) :
    (∃ b v, get_elms d ctx a = .ok (d.find ctx b v)) ∧
    (get_elms d ctx a = .ok [] → get_elm d ctx a = .error .elementNotFound) ∧
    ∀ e rest, get_elms d ctx a = .ok (e :: rest) → get_elm d ctx a = .ok e := by
  refine ⟨?_, ?_, ?_⟩
  · unfold get_elms resolve_parent
    rw [hp]
    simp only [Bool.false_eq_true, if_false]
    rcases a with ⟨i, c, n, t, pi, pc, pn, pt, x, cs⟩
    unfold mainCount at h1
    cases i <;> cases c <;> cases n <;> cases t <;> cases x <;> cases cs <;>
      simp_all [find_by]
  · intro hge
    unfold get_elm
    rw [hge]
  · intro e rest hge
    unfold get_elm
    rw [hge]

theorem get_elm_first_of_get_elms_witness :
    get_elms dOther none aId = .ok [] ∧
    get_elm dOther none aId = .error .elementNotFound ∧
    dOther.find none .class_name "x" = [7] :=
  ⟨rfl, (get_elm_first_of_get_elms dOther none aId rfl rfl).2.1 rfl, rfl⟩

/-- Claim C8: `close_alert` with `ignore_exception=True` returns normally
whatever the outcome (of any error kind `E`) of fetching and accepting the
alert was; with `ignore_exception=False` that outcome propagates
unchanged. -/
theorem close_alert_suppression (E : Type) (r : Except E Unit) :
    close_alert r true = .ok () ∧ close_alert r false = r := by
  cases r with
  | ok u => exact ⟨rfl, rfl⟩
  | error e => exact ⟨rfl, rfl⟩

/-- Claim C9: in all five wait-based operations a falsy timeout — `None` or
the explicit value `0` — is replaced by the default of 10 seconds, while any
non-zero timeout is used as given. -/
theorem wait_timeout_falsy_default :
    (wait_timeout none = 10 ∧ wait_timeout (some 0) = 10 ∧
      ∀ n : Nat, n ≠ 0 → wait_timeout (some n) = n) ∧
    (wait_for_element_timeout none = 10 ∧ wait_for_element_timeout (some 0) = 10 ∧
      ∀ n : Nat, n ≠ 0 → wait_for_element_timeout (some n) = n) ∧
    (wait_for_element_show_timeout none = 10 ∧ wait_for_element_show_timeout (some 0) = 10 ∧
      ∀ n : Nat, n ≠ 0 → wait_for_element_show_timeout (some n) = n) ∧
    (wait_for_element_hide_timeout none = 10 ∧ wait_for_element_hide_timeout (some 0) = 10 ∧
      ∀ n : Nat, n ≠ 0 → wait_for_element_hide_timeout (some n) = n) ∧
    (wait_for_alert_timeout none = 10 ∧ wait_for_alert_timeout (some 0) = 10 ∧
      ∀ n : Nat, n ≠ 0 → wait_for_alert_timeout (some n) = n) := by
  refine ⟨⟨rfl, rfl, ?_⟩, ⟨rfl, rfl, ?_⟩, ⟨rfl, rfl, ?_⟩, ⟨rfl, rfl, ?_⟩, ⟨rfl, rfl, ?_⟩⟩ <;>
    rintro (_ | m) hn
  all_goals first
  | exact absurd rfl hn
  | rfl

theorem wait_timeout_falsy_default_witness :
    wait_timeout (some 7) = 7 ∧ wait_for_element_timeout (some 7) = 7 ∧
    wait_for_element_show_timeout (some 7) = 7 ∧
    wait_for_element_hide_timeout (some 7) = 7 ∧ wait_for_alert_timeout (some 7) = 7 :=
  ⟨wait_timeout_falsy_default.1.2.2 7 (by decide),
   wait_timeout_falsy_default.2.1.2.2 7 (by decide),
   wait_timeout_falsy_default.2.2.1.2.2 7 (by decide),
   wait_timeout_falsy_default.2.2.2.1.2.2 7 (by decide),
   wait_timeout_falsy_default.2.2.2.2.2.2 7 (by decide)⟩

/-- Claim C10: in `get_elms`, parent fields are tested by truthiness — when
every parent field is `None` or the empty string no parent resolution
happens and the search runs from the current root — whereas main selector
fields are tested for being non-`None`: an empty-string main field both
counts against the one-selector limit and is dispatched as a real
selector. -/
theorem get_elms_truthiness :
    (∀ (d : Driver) (ctx : Option Nat) (a : Args),
      a.parent_id = none ∨ a.parent_id = some "" →
      a.parent_class_name = none ∨ a.parent_class_name = some "" →
      a.parent_name = none ∨ a.parent_name = some "" →
      a.parent_tag_name = none ∨ a.parent_tag_name = some "" →
      get_elms d ctx a =
        find_by d ctx a.id_ a.class_name a.name a.tag_name a.xpath a.css_selector) ∧
    (∀ (d : Driver) (ctx : Option Nat) (s : String),
      get_elms d ctx { id_ := some "", class_name := some s } = .error .invalidQuery) ∧
    ∀ (d : Driver) (ctx : Option Nat),
      get_elms d ctx { id_ := some "" } = .ok (d.find ctx .id "") := by
  refine ⟨?_, fun d ctx s => rfl, fun d ctx => rfl⟩
  intro d ctx a h1 h2 h3 h4
  have hfalse : any_parent_truthy a = false := by
    unfold any_parent_truthy
    rcases h1 with h1 | h1 <;> rcases h2 with h2 | h2 <;> rcases h3 with h3 | h3 <;>
      rcases h4 with h4 | h4 <;> simp [pyTruthyStr, h1, h2, h3, h4]
  unfold get_elms resolve_parent
  simp [hfalse]

theorem get_elms_truthiness_witness :
    get_elms dEmpty none { id_ := some "q", parent_id := some "" } =
      find_by dEmpty none (some "q") none none none none none :=
  get_elms_truthiness.1 dEmpty none { id_ := some "q", parent_id := some "" }
    (Or.inr rfl) (Or.inl rfl) (Or.inl rfl) (Or.inl rfl)

/-- On a stale-free element list, the generator `all(not elm.is_displayed())`
computes whether every element is hidden. -/
theorem allNotDisplayed_of_noStale (d : Driver) (elms : List Nat) (h : noStale d elms) :
    allNotDisplayed d elms = .ok (elms.all (isHidden d)) := by
  induction elms with
  | nil => rfl
  | cons e rest ih =>
    have he : d.displayed e ≠ .error () := h e (List.mem_cons_self e rest)
    have hrest : noStale d rest := fun x hx => h x (List.mem_cons_of_mem e hx)
    unfold allNotDisplayed
    cases hd : d.displayed e with
    | error u => cases u; exact absurd hd he
    | ok b =>
      cases b with
      | true => simp [List.all_cons, isHidden, hd]
      | false => simp [List.all_cons, isHidden, hd, ih hrest]

/-- Stale-free evaluation of the `wait_for_element_show` step. -/
theorem show_callback_of_noStale (d : Driver) (ctx : Option Nat) (a : Args) (elms : List Nat)
    (hg : get_elms d ctx a = .ok elms) (h : noStale d elms) :
    show_callback d ctx a = .ok (!elms.isEmpty && !elms.all (isHidden d)) := by
  unfold show_callback
  rw [hg]
  dsimp only
  rw [allNotDisplayed_of_noStale d elms h]
  cases elms with
  | nil => rfl
  | cons e rest => cases hall : (e :: rest).all (isHidden d) <;> simp [hall]

/-- Stale-free evaluation of the `wait_for_element_hide` step. -/
theorem hide_callback_of_noStale (d : Driver) (ctx : Option Nat) (a : Args) (elms : List Nat)
    (hg : get_elms d ctx a = .ok elms) (h : noStale d elms) :
    hide_callback d ctx a = .ok (elms.isEmpty || elms.all (isHidden d)) := by
  unfold hide_callback
  rw [hg]
  dsimp only
  rw [allNotDisplayed_of_noStale d elms h]
  cases elms with
  | nil => rfl
  | cons e rest => cases hall : (e :: rest).all (isHidden d) <;> simp [hall]

/-- For a non-stale element, not being hidden is exactly reporting visible. -/
theorem isHidden_false_iff (d : Driver) (e : Nat) (h : d.displayed e ≠ .error ()) :
    isHidden d e = false ↔ d.displayed e = .ok true := by
  unfold isHidden
  cases hd : d.displayed e with
  | error u => cases u; exact absurd hd h
  | ok b => cases b <;> simp

/-- Claim C2: a `wait_for_element_show` polling step on a stale-free state
succeeds exactly when the resolved element set is non-empty and some element
reports visible; and whenever checking visibility raises a stale-element
error, the step reports `False` instead of propagating it. -/
theorem show_step_spec (d : Driver) (ctx : Option Nat) (a : Args) (elms : List Nat)
    (hg : get_elms d ctx a = .ok elms) :
    (noStale d elms →
      (show_callback d ctx a = .ok true ↔ elms ≠ [] ∧ ∃ e ∈ elms, d.displayed e = .ok true)) ∧
    (allNotDisplayed d elms = .error () → show_callback d ctx a = .ok false) := by
  constructor
  · intro h
    rw [show_callback_of_noStale d ctx a elms hg h]
    simp only [Except.ok.injEq, Bool.and_eq_true, Bool.not_eq_true]
    constructor
    · rintro ⟨h1, h2⟩
      refine ⟨by simpa using h1, ?_⟩
      rcases List.all_eq_false.mp (by simpa using h2) with ⟨e, he, hhid⟩
      exact ⟨e, he, (isHidden_false_iff d e (h e he)).mp (by simpa using hhid)⟩
    · rintro ⟨h1, e, he, hvis⟩
      refine ⟨by simpa using h1, ?_⟩
      have hf : isHidden d e = false := (isHidden_false_iff d e (h e he)).mpr hvis
      cases hall : elms.all (isHidden d) with
      | false => rfl
      | true => exact absurd (List.all_eq_true.mp hall e he) (by simp [hf])
  · intro hs
    unfold show_callback
    rw [hg]
    dsimp only
    rw [hs]
    cases elms <;> rfl

theorem show_step_spec_witness : show_callback dShow none aId = .ok true := by
  have hns : noStale dShow [1, 2] := by
    intro e he
    simp only [List.mem_cons, List.not_mem_nil, or_false] at he
    rcases he with rfl | rfl <;> simp [dShow]
  exact ((show_step_spec dShow none aId [1, 2] rfl).1 hns).mpr
    (by refine ⟨by simp, 2, by simp, ?_⟩; simp [dShow])

/-- Claim C3: a `wait_for_element_hide` polling step on a stale-free state
succeeds exactly when the resolved element set is empty or every element
reports not-visible; and whenever checking visibility raises a stale-element
error, the step reports `False` (not yet hidden) instead of propagating
it. -/
theorem hide_step_spec (d : Driver) (ctx : Option Nat) (a : Args) (elms : List Nat)
    (hg : get_elms d ctx a = .ok elms) :
    (noStale d elms →
      (hide_callback d ctx a = .ok true ↔ elms = [] ∨ ∀ e ∈ elms, d.displayed e = .ok false)) ∧
    (allNotDisplayed d elms = .error () → hide_callback d ctx a = .ok false) := by
  constructor
  · intro h
    rw [hide_callback_of_noStale d ctx a elms hg h]
    simp only [Except.ok.injEq, Bool.or_eq_true]
    constructor
    · rintro (h1 | h1)
      · exact Or.inl (by simpa using h1)
      · refine Or.inr fun e he => ?_
        have hh : isHidden d e = true := List.all_eq_true.mp h1 e he
        unfold isHidden at hh
        cases hd : d.displayed e with
        | error u => cases u; exact absurd hd (h e he)
        | ok b =>
          cases b with
          | false => rfl
          | true => rw [hd] at hh; exact absurd hh (by simp)
    · rintro (h1 | h1)
      · subst h1; exact Or.inl rfl
      · refine Or.inr (List.all_eq_true.mpr fun e he => ?_)
        unfold isHidden
        rw [h1 e he]
  · intro hs
    unfold hide_callback
    rw [hg]
    dsimp only
    rw [hs]
    cases elms with
    | nil => exact Except.noConfusion hs
    | cons e rest => rfl

theorem hide_step_spec_witness : hide_callback dHide none aId = .ok true := by
  have hns : noStale dHide [1] := by
    intro e he
    simp [dHide]
  exact ((hide_step_spec dHide none aId [1] rfl).1 hns).mpr
    (Or.inr fun e he => rfl)

/-- Claim C4: on a static stale-free state the two polling steps are exact
logical negations of each other: the show step answers some boolean `b` and
the hide step answers `!b`. -/
theorem show_hide_steps_complementary (d : Driver) (ctx : Option Nat) (a : Args)
    (elms : List Nat) (hg : get_elms d ctx a = .ok elms) (h : noStale d elms) :
    ∃ b, show_callback d ctx a = .ok b ∧ hide_callback d ctx a = .ok (!b) := by
  refine ⟨!elms.isEmpty && !elms.all (isHidden d),
    show_callback_of_noStale d ctx a elms hg h, ?_⟩
  rw [hide_callback_of_noStale d ctx a elms hg h]
  cases elms.isEmpty <;> cases elms.all (isHidden d) <;> rfl

theorem show_hide_steps_complementary_witness :
    show_callback dShow none aId = .ok true ∧ hide_callback dShow none aId = .ok false := by
  have hns : noStale dShow [1, 2] := by
    intro e he
    simp only [List.mem_cons, List.not_mem_nil, or_false] at he
    rcases he with rfl | rfl <;> simp [dShow]
  obtain ⟨b, h1, h2⟩ := show_hide_steps_complementary dShow none aId [1, 2] rfl hns
  have hb : show_callback dShow none aId = .ok true := rfl
  rw [h1] at hb
  cases Except.ok.inj hb
  exact ⟨h1, h2⟩

/-- Claim C6: a `path` that parses with a netloc is returned unchanged; a
relative `path` is combined with the current URL's scheme and host, an
absent `path` keeps the current path, an absent `query` yields no query
component, a mapping `query` is form-urlencoded, and the current URL's
query and fragment are dropped. -/
theorem get_url_spec :
    (∀ (cur p : String) (q : Option PyQuery),
      (urlsplit p).netloc ≠ "" → get_url cur (some p) q = p) ∧
    get_url "https://a.com/x?y=1" (some "/z") none = "https://a.com/z" ∧
    get_url "https://a.com/x" (some "https://other.com/y") none = "https://other.com/y" ∧
    get_url "https://a.com/x?y=1" none none = "https://a.com/x" ∧
    get_url "https://a.com/x" (some "/z") (some (.dict [("a", "b c"), ("k", "v")])) =
      "https://a.com/z?a=b+c&k=v" ∧
    get_url "https://a.com/x?q=1#frag" (some "/z") none = "https://a.com/z" := by
  refine ⟨?_, rfl, rfl, rfl, rfl, rfl⟩
  intro cur p q h
  unfold get_url
  dsimp only
  rw [if_pos h]

theorem get_url_spec_witness :
    (urlsplit "https://other.com/y").netloc ≠ "" ∧
    get_url "https://a.com/x" (some "https://other.com/y") none = "https://other.com/y" :=
  ⟨by decide, get_url_spec.1 "https://a.com/x" "https://other.com/y" none (by decide)⟩

/-- The scan loop never succeeds when neither a title nor a URL criterion is
given (the two `if`s of lines 243-246 are both skipped for falsy values). -/
theorem stw_loop_none_none (hs : List String) (s : Session) :
    stw_loop none none hs s = .error .noSuchWindow := by
  induction hs generalizing s with
  | nil => rfl
  | cons h rest ih =>
    unfold stw_loop
    cases hsw : switch_handle s h with
    | error e => rfl
    | ok s' => simpa [pyTruthyStr] using ih s'

/-- A successful `switch_to_window` by handle leaves that handle focused. -/
theorem switch_to_window_by_handle (x : Session) (m : String) (s2 : Session)
    (h : switch_to_window x (some m) none none = .ok s2) : s2.current = m := by
  by_cases hm : m = ""
  · subst hm
    have h' : stw_loop none none (x.windows.map Window.handle) x = .ok s2 := h
    rw [stw_loop_none_none] at h'
    exact Except.noConfusion h'
  · have hne : pyTruthyStr (some m) = true := by
      simp [pyTruthyStr, hm]
    unfold switch_to_window at h
    rw [if_pos hne] at h
    unfold switch_handle at h
    split at h
    · cases Except.ok.inj h
      rfl
    · exact Except.noConfusion h

/-- Claim C7: whenever `close_window` returns successfully, the window that
was focused before the call is focused again afterwards — the recorded
handle is switched back to as the final step. -/
theorem close_window_restores_focus (s : Session) (wn t u : Option String) (s2 : Session)
    (h : close_window s wn t u = .ok s2) : s2.current = s.current := by
  unfold close_window at h
  cases h1 : switch_to_window s wn t u with
  | error e => rw [h1] at h; exact Except.noConfusion h
  | ok s1 =>
    rw [h1] at h
    exact switch_to_window_by_handle (close_current s1) s.current s2 h

theorem close_window_restores_focus_witness :
    close_window sTwo (some "w2") none none = .ok sTwoAfter ∧
    sTwoAfter.current = sTwo.current :=
  ⟨rfl, close_window_restores_focus sTwo (some "w2") none none sTwoAfter rfl⟩

end Wrapper

